import Mathlib

/-!
Verification development for the stock / mutual-fund cycle analyzer
(`stock_cycle_analysis.py`).  The Python source is shallowly embedded:

* dates are `(year, month, day)` triples with `dateutil.relativedelta`
  calendar arithmetic (month/year subtraction clamps the day of month,
  day subtraction is exact ordinal arithmetic);
* prices are exact rationals (the source works with Python floats; the
  claims under study are about formula structure, not float rounding);
* Python exceptions are an explicit `Except` error channel, with an
  unhandled `ZeroDivisionError` distinguished from an `HTTPException`;
* the external `yfinance` provider is a function parameter producing the
  `(date, close)` rows of the downloaded frame.
-/

namespace StockCycle

/-- Errors a request can end in: an `HTTPException(status, detail)` raised
by the code itself, or an unhandled `ZeroDivisionError` escaping to the
framework. -/
inductive Err where
  | http (status : Nat) (detail : String)
  | zeroDivision
  deriving DecidableEq, Repr

/-- A calendar date, as in `datetime.datetime` (time-of-day is unused by
the program). -/
structure Date where
  year : Int
  month : Int
  day : Int
  deriving DecidableEq, Repr

/-- Gregorian leap-year rule. -/
def isLeap (y : Int) : Bool :=
  y % 4 = 0 && (y % 100 ≠ 0 || y % 400 = 0)

/-- Length of a month. -/
def daysInMonth (y m : Int) : Int :=
  if m = 2 then (if isLeap y then 29 else 28)
  else if m = 4 ∨ m = 6 ∨ m = 9 ∨ m = 11 then 30
  else 31

/-- Days strictly before month `m` in a non-leap year (cumulative table). -/
def cumDays (m : Int) : Int :=
  if m = 1 then 0 else if m = 2 then 31 else if m = 3 then 59
  else if m = 4 then 90 else if m = 5 then 120 else if m = 6 then 151
  else if m = 7 then 181 else if m = 8 then 212 else if m = 9 then 243
  else if m = 10 then 273 else if m = 11 then 304 else 334

/-- Days strictly before month `m` of year `y`. -/
def daysBeforeMonth (y m : Int) : Int :=
  cumDays m + (if 2 < m ∧ isLeap y then 1 else 0)

/-- Proleptic-Gregorian ordinal of a date (0001-01-01 is day 1), as in
`datetime.date.toordinal`. -/
def toOrdinal (d : Date) : Int :=
  365 * (d.year - 1) + Int.fdiv (d.year - 1) 4 - Int.fdiv (d.year - 1) 100
    + Int.fdiv (d.year - 1) 400 + daysBeforeMonth d.year d.month + d.day

/-- Month that day-of-year `r` (0-based) of year `y` falls in. -/
def monthOfDay (y r : Int) : Int :=
  if r < daysBeforeMonth y 2 then 1
  else if r < daysBeforeMonth y 3 then 2
  else if r < daysBeforeMonth y 4 then 3
  else if r < daysBeforeMonth y 5 then 4
  else if r < daysBeforeMonth y 6 then 5
  else if r < daysBeforeMonth y 7 then 6
  else if r < daysBeforeMonth y 8 then 7
  else if r < daysBeforeMonth y 9 then 8
  else if r < daysBeforeMonth y 10 then 9
  else if r < daysBeforeMonth y 11 then 10
  else if r < daysBeforeMonth y 12 then 11
  else 12

/-- Inverse of `toOrdinal` (the `datetime.date.fromordinal` algorithm:
peel off 400-, 100-, 4- and 1-year blocks, then locate the month). -/
def ofOrdinal (n : Int) : Date :=
  let d0 := n - 1
  let n400 := Int.fdiv d0 146097
  let r1 := Int.emod d0 146097
  let n100 := Int.fdiv r1 36524
  let r2 := Int.emod r1 36524
  let n4 := Int.fdiv r2 1461
  let r3 := Int.emod r2 1461
  let n1 := Int.fdiv r3 365
  let r4 := Int.emod r3 365
  let year := n400 * 400 + n100 * 100 + n4 * 4 + n1 + 1
  if n1 = 4 ∨ n100 = 4 then ⟨year - 1, 12, 31⟩
  else
    let m := monthOfDay year r4
    ⟨year, m, r4 - daysBeforeMonth year m + 1⟩

/-- `d - relativedelta(days=k)`: exact ordinal arithmetic. -/
def subDays (d : Date) (k : Int) : Date :=
  ofOrdinal (toOrdinal d - k)

/-- `d - relativedelta(months=k)`: shift the month index, clamping the
day to the target month's length (the relative-delta convention). -/
def subMonths (d : Date) (k : Int) : Date :=
  let tot := d.year * 12 + (d.month - 1) - k
  let y := Int.fdiv tot 12
  let m := Int.emod tot 12 + 1
  ⟨y, m, min d.day (daysInMonth y m)⟩

/-- `d - relativedelta(years=k)`: shift the year, clamping the day
(Feb 29 in a leap year maps to Feb 28 in a common year). -/
def subYears (d : Date) (k : Int) : Date :=
  let y := d.year - k
  ⟨y, d.month, min d.day (daysInMonth y d.month)⟩

/-- The source's `end_date - relativedelta(**{duration_unit: k})`:
dispatch to the unit named by `duration_unit` (only called after the
unit has been validated against `days`/`months`/`years`). -/
def subDelta (d : Date) (duration_unit : String) (k : Int) : Date :=
  if duration_unit = "days" then subDays d k
  else if duration_unit = "months" then subMonths d k
  else subYears d k

/-- Left-pad the decimal digits of a (nonnegative) integer to `w` places,
as `strftime` does for `%Y`, `%m`, `%d`. -/
def pad (w : Nat) (n : Int) : String :=
  let s := toString n.toNat
  String.mk (List.replicate (w - s.length) '0') ++ s

/-- `d.strftime("%Y-%m-%d")`. -/
def strftime (d : Date) : String :=
  pad 4 d.year ++ "-" ++ pad 2 d.month ++ "-" ++ pad 2 d.day

/-- Split a character list on a separator, as `str.split` does. -/
def splitOnChar (sep : Char) : List Char → List (List Char)
  | [] => [[]]
  | c :: rest =>
    let r := splitOnChar sep rest
    if c = sep then [] :: r
    else
      match r with
      | [] => [[c]]
      | g :: gs => (c :: g) :: gs

/-- Numeric value of a digit string. -/
def natOf (cs : List Char) : Nat :=
  cs.foldl (fun a c => a * 10 + (c.toNat - 48)) 0

/-- `parse_date`: `datetime.strptime(d, "%Y-%m-%d")`, which accepts
1–4 year digits and 1–2 month/day digits separated by `-`, and rejects
impossible calendar dates; on failure the source raises
`HTTPException(400, "Invalid date format. Use YYYY-MM-DD")`. -/
def parse_date (s : String) : Except Err Date :=
  match splitOnChar '-' s.data with
  | [ys, ms, ds] =>
    if 1 ≤ ys.length ∧ ys.length ≤ 4 ∧ 1 ≤ ms.length ∧ ms.length ≤ 2
        ∧ 1 ≤ ds.length ∧ ds.length ≤ 2
        ∧ ys.all Char.isDigit ∧ ms.all Char.isDigit ∧ ds.all Char.isDigit then
      let y : Int := natOf ys
      let m : Int := natOf ms
      let dd : Int := natOf ds
      if 1 ≤ y ∧ y ≤ 9999 ∧ 1 ≤ m ∧ m ≤ 12 ∧ 1 ≤ dd ∧ dd ≤ daysInMonth y m then
        .ok ⟨y, m, dd⟩
      else .error (.http 400 "Invalid date format. Use YYYY-MM-DD")
    else .error (.http 400 "Invalid date format. Use YYYY-MM-DD")
  | _ => .error (.http 400 "Invalid date format. Use YYYY-MM-DD")

deriving instance DecidableEq for Except

example : parse_date "2024-01-01" = .ok ⟨2024, 1, 1⟩ := by decide
example : parse_date "2024-02-30" =
    .error (.http 400 "Invalid date format. Use YYYY-MM-DD") := by decide
example : subYears ⟨2024, 1, 1⟩ 1 = ⟨2023, 1, 1⟩ := by decide
example : subYears ⟨2024, 2, 29⟩ 1 = ⟨2023, 2, 28⟩ := by decide
example : subMonths ⟨2024, 3, 31⟩ 1 = ⟨2024, 2, 29⟩ := by decide
example : subMonths ⟨2024, 1, 15⟩ 13 = ⟨2022, 12, 15⟩ := by decide
example : subDays ⟨2024, 3, 1⟩ 1 = ⟨2024, 2, 29⟩ := by decide
example : subDays ⟨2024, 1, 1⟩ 365 = ⟨2023, 1, 1⟩ := by decide
example : subDays ⟨2021, 1, 1⟩ (-365) = ⟨2022, 1, 1⟩ := by decide
example : strftime ⟨2024, 1, 1⟩ = "2024-01-01" := by decide
example : ofOrdinal (toOrdinal ⟨2000, 12, 31⟩) = ⟨2000, 12, 31⟩ := by decide
example : ofOrdinal (toOrdinal ⟨1996, 2, 29⟩) = ⟨1996, 2, 29⟩ := by decide
example : ofOrdinal 1 = ⟨1, 1, 1⟩ := by decide

/-- Rounding to 2 decimal places on exact rationals (Python `round(x, 2)`;
ties are astronomically unlikely in this domain and the claims do not
probe them, so the generic round-half convention of `round` is used). -/
def round2 (x : ℚ) : ℚ := (round (x * 100) : ℤ) / 100

/-- Rounding a real to 2 decimal places (for the float-valued
`std_dev`/`cagr` fields). -/
noncomputable def round2R (x : ℝ) : ℝ := (round (x * 100) : ℤ) / 100

/-- Rounding a real to 3 decimal places (for the `sharpe_ratio` field). -/
noncomputable def round3R (x : ℝ) : ℝ := (round (x * 1000) : ℤ) / 1000

/-- `statistics.pvariance`: population variance, squared deviations from
the mean divided by `N` (the `statistics` module computes this exactly
over fractions). -/
def pvariance (l : List ℚ) : ℚ :=
  (l.map (fun x => (x - l.sum / l.length) ^ 2)).sum / l.length

/-- `statistics.pstdev`: square root of the population variance. -/
noncomputable def pstdev (l : List ℚ) : ℝ := Real.sqrt (pvariance l)

/-- The external `yfinance` download, as a black box: the `(date, close)`
rows of the frame returned for a symbol and a date range. -/
def Feed : Type := String → Date → Date → List (String × ℚ)

/-- `get_price_series`: download the range, 404 when the frame is empty,
404 when fewer than two closing prices remain, else the date strings and
the close column. -/
def get_price_series (yf : Feed) (symbol : String) (start finish : Date) :
    Except Err (List String × List ℚ) :=
  let data := yf symbol start finish
  if data.isEmpty then
    .error (.http 404 ("No price data found for " ++ symbol ++ ". Check symbol and date range."))
  else
    let close := data.map Prod.snd
    if close.length < 2 then
      .error (.http 404 ("Insufficient data for " ++ symbol ++ " in date range"))
    else
      .ok (data.map Prod.fst, close)

/-- One row of the per-cycle breakdown in the `/analyze` response. -/
structure CycleResult where
  cycle : Nat
  from_ : String
  to_ : String
  growth_percent : ℚ
  deriving DecidableEq, Repr

/-- The `/analyze` JSON response.  `cagr_percent` is `none` when the key
is absent from the response object. -/
structure AnalyzeResponse where
  symbol : String
  average_growth_percent : ℚ
  std_dev_percent : ℝ
  sharpe_ratio : ℝ
  risk_free_rate_used : ℚ
  results : List CycleResult
  cagr_percent : Option ℝ

/-- Mutable state of the `for i in range(cycles)` loop in `analyze`. -/
@[ext]
structure LoopSt where
  results : List CycleResult
  cycle_returns : List ℚ
  oldest_start_price : Option ℚ
  newest_end_price : Option ℚ
  deriving DecidableEq, Repr

/-- The body of `analyze`'s cycle loop, iterations `i, i+1, ...` with `k`
iterations left.  Each iteration computes the window by relative-delta
subtraction, fetches it, reads the first and last price, records
`newest_end_price` on iteration `0` and `oldest_start_price` on
iteration `cycles - 1`, and computes the growth; a zero start price
raises Python's `ZeroDivisionError`. -/
def loopGo (yf : Feed) (symbol : String) (endD : Date) (dv : Int) (du : String)
    (cycles : Int) : Nat → Nat → LoopSt → Except Err LoopSt
  | _, 0, st => .ok st
  | i, k + 1, st =>
    let cycle_end := subDelta endD du ((i : Int) * dv)
    let cycle_start := subDelta cycle_end du dv
    match get_price_series yf symbol cycle_start cycle_end with
    | .error e => .error e
    | .ok (_, prices) =>
      let start_price := prices.headD 0
      let end_price := prices.getLastD 0
      let newest := if i = 0 then some end_price else st.newest_end_price
      let oldest := if (i : Int) = cycles - 1 then some start_price else st.oldest_start_price
      if start_price = 0 then .error .zeroDivision
      else
        let growth := (end_price - start_price) / start_price * 100
        loopGo yf symbol endD dv du cycles (i + 1) k
          { results := st.results ++
              [⟨i + 1, strftime cycle_start, strftime cycle_end, round2 growth⟩]
            cycle_returns := st.cycle_returns ++ [growth]
            oldest_start_price := oldest
            newest_end_price := newest }

/-- The whole cycle loop of `analyze` (`range(cycles)` is empty when
`cycles ≤ 0`, exactly as `Int.toNat` makes it). -/
def runCycles (yf : Feed) (symbol : String) (endD : Date) (dv : Int) (du : String)
    (cycles : Int) : Except Err LoopSt :=
  loopGo yf symbol endD dv du cycles 0 cycles.toNat ⟨[], [], none, none⟩

/-- The `/analyze` endpoint.  Mirrors the source line by line: unit
validation, date parsing, the cycle loop, the aggregate metrics (the
`sum/len` of an empty list is Python's `ZeroDivisionError`), and the
conditional mutual-fund CAGR block.  The `Option.getD` on
`oldest_start_price`/`newest_end_price` is only evaluated when the loop
ran at least once, so the `none` branch is unreachable there. -/
noncomputable def analyze (yf : Feed) (symbol : String) (duration_value : Int)
    (duration_unit : String) (cycles : Int) (end_date : String)
    (asset_type : String) (risk_free_rate : ℚ) : Except Err AnalyzeResponse :=
  if duration_unit ∉ (["days", "months", "years"] : List String) then
    .error (.http 400 "Invalid duration_unit")
  else
    match parse_date end_date with
    | .error e => .error e
    | .ok endD =>
      match runCycles yf symbol endD duration_value duration_unit cycles with
      | .error e => .error e
      | .ok st =>
        if st.cycle_returns.length = 0 then .error .zeroDivision
        else
          let avg_return : ℚ := st.cycle_returns.sum / st.cycle_returns.length
          let std_dev : ℝ := if st.cycle_returns.length > 1 then pstdev st.cycle_returns else 0
          let sharpe : ℝ :=
            if std_dev ≠ 0 then (((avg_return - risk_free_rate : ℚ) : ℝ)) / std_dev else 0
          let base : AnalyzeResponse :=
            { symbol := symbol.toUpper
              average_growth_percent := round2 avg_return
              std_dev_percent := round2R std_dev
              sharpe_ratio := round3R sharpe
              risk_free_rate_used := risk_free_rate
              results := st.results
              cagr_percent := none }
          if asset_type = "mf" then
            let total_years : ℚ :=
              if duration_unit = "years" then duration_value * cycles
              else if duration_unit = "months" then (duration_value * cycles : ℚ) / 12
              else (duration_value * cycles : ℚ) / (1461 / 4 : ℚ)
            if 0 < total_years ∧ 0 < st.oldest_start_price.getD 0 then
              let cagr : ℝ :=
                (((st.newest_end_price.getD 0 : ℚ) : ℝ) / ((st.oldest_start_price.getD 0 : ℚ) : ℝ))
                  ^ ((1 : ℝ) / ((total_years : ℚ) : ℝ)) - 1
              .ok { base with cagr_percent := some (round2R (cagr * 100)) }
            else .ok base
          else .ok base

/-- One cycle-boundary marker in the `/price-series` response. -/
structure CyclePoint where
  cycle : Nat
  start : String
  stop : String
  deriving DecidableEq, Repr

/-- The `/price-series` JSON response. -/
structure PriceSeriesResponse where
  symbol : String
  dates : List String
  prices : List ℚ
  cycles : List CyclePoint
  deriving DecidableEq, Repr

/-- The `/price-series` endpoint: validate the unit, parse the date,
fetch one contiguous series spanning all cycles, and annotate the same
relative-delta window boundaries (the `for` loop appending
`cycle_points`, rendered as a map over `range(cycles)`). -/
def price_series (yf : Feed) (symbol : String) (duration_value : Int)
    (duration_unit : String) (cycles : Int) (end_date : String) :
    Except Err PriceSeriesResponse :=
  if duration_unit ∉ (["days", "months", "years"] : List String) then
    .error (.http 400 "Invalid duration_unit")
  else
    match parse_date end_date with
    | .error e => .error e
    | .ok endD =>
      let earliest_start := subDelta endD duration_unit (duration_value * cycles)
      match get_price_series yf symbol earliest_start endD with
      | .error e => .error e
      | .ok (dates, prices) =>
        let cycle_points := (List.range cycles.toNat).map (fun (i : Nat) =>
          let cycle_end := subDelta endD duration_unit ((i : Int) * duration_value)
          let cycle_start := subDelta cycle_end duration_unit duration_value
          (⟨i + 1, strftime cycle_start, strftime cycle_end⟩ : CyclePoint))
        .ok { symbol := symbol.toUpper, dates := dates, prices := prices,
              cycles := cycle_points }

/-- One entry of the `/search-symbols` result list. -/
structure SymbolEntry where
  symbol : String
  name : String
  deriving DecidableEq, Repr

/-- The `/search-symbols` JSON response; `error` is the optional
`"error"` key attached when the universe lookup raised. -/
structure SearchResponse where
  results : List SymbolEntry
  error : Option String
  deriving DecidableEq, Repr

/-- Python's `needle in hay` substring test. -/
def containsSub (hay needle : String) : Bool :=
  decide (needle.data <:+: hay.data)

/-- The `/search-symbols` endpoint.  `get_stocks` stands for the
`investpy.stocks.get_stocks(country='india')` call, which either returns
the stock-name universe or raises (the `except` branch attaches the
message).  An empty query short-circuits before that call. -/
def search_symbols (get_stocks : Except String (List String)) (q : String) :
    SearchResponse :=
  if q.length < 1 then { results := [], error := none }
  else
    match get_stocks with
    | .error e => { results := [], error := some e }
    | .ok stocks =>
      let search_term := q.toLower
      let matching := (stocks.filter (fun s => containsSub s.toLower search_term)).take 15
      { results := matching.map (fun s => { symbol := s ++ ".NS", name := s }), error := none }

/-! ### Specification-side descriptions of the cycle loop

The following definitions state, window by window, what the loop in
`analyze` computes; `loopGo_spec` below proves that the loop agrees with
them whenever every fetch succeeds. -/

/-- The end of cycle `i` (0-based): `reference_end − i × duration`. -/
def cycleEndDate (endD : Date) (du : String) (dv : Int) (i : Nat) : Date :=
  subDelta endD du ((i : Int) * dv)

/-- The start of cycle `i`: its end minus one duration. -/
def cycleStartDate (endD : Date) (du : String) (dv : Int) (i : Nat) : Date :=
  subDelta (cycleEndDate endD du dv i) du dv

/-- The close-price series the provider yields for cycle `i`'s window. -/
def windowPrices (yf : Feed) (sym : String) (endD : Date) (du : String)
    (dv : Int) (i : Nat) : List ℚ :=
  (yf sym (cycleStartDate endD du dv i) (cycleEndDate endD du dv i)).map Prod.snd

/-- First fetched price of cycle `i`'s window. -/
def startPriceAt (yf : Feed) (sym : String) (endD : Date) (du : String)
    (dv : Int) (i : Nat) : ℚ :=
  (windowPrices yf sym endD du dv i).headD 0

/-- Last fetched price of cycle `i`'s window. -/
def endPriceAt (yf : Feed) (sym : String) (endD : Date) (du : String)
    (dv : Int) (i : Nat) : ℚ :=
  (windowPrices yf sym endD du dv i).getLastD 0

/-- The growth of cycle `i`: `(end_price − start_price) / start_price × 100`. -/
def growthAt (yf : Feed) (sym : String) (endD : Date) (du : String)
    (dv : Int) (i : Nat) : ℚ :=
  (endPriceAt yf sym endD du dv i - startPriceAt yf sym endD du dv i)
    / startPriceAt yf sym endD du dv i * 100

/-- The response row of cycle `i`: 1-based index, window boundaries,
growth rounded to two decimals. -/
def resultAt (yf : Feed) (sym : String) (endD : Date) (du : String)
    (dv : Int) (i : Nat) : CycleResult :=
  ⟨i + 1, strftime (cycleStartDate endD du dv i), strftime (cycleEndDate endD du dv i),
    round2 (growthAt yf sym endD du dv i)⟩

/-- A provider for which every range query succeeds: at least two close
prices, and a nonzero first price. -/
def GoodFeed (yf : Feed) : Prop :=
  ∀ sym s e, 2 ≤ ((yf sym s e).map Prod.snd).length ∧
    ((yf sym s e).map Prod.snd).headD 0 ≠ 0

/-- With a `GoodFeed`, `get_price_series` returns the dates and the close
column of the downloaded frame. -/
theorem get_price_series_ok (yf : Feed) (hyf : GoodFeed yf) (sym : String)
    (s e : Date) :
    get_price_series yf sym s e =
      .ok ((yf sym s e).map Prod.fst, (yf sym s e).map Prod.snd) := by
  obtain ⟨h2, -⟩ := hyf sym s e
  have hlen : 2 ≤ (yf sym s e).length := by simpa using h2
  have hemp : (yf sym s e).isEmpty = false := by
    cases hl : yf sym s e with
    | nil => rw [hl] at hlen; simp at hlen
    | cons a t => rfl
  have h2' : ¬ ((yf sym s e).map Prod.snd).length < 2 := by omega
  simp [get_price_series, hemp, h2']
  omega

/-- Master characterization of `analyze`'s loop: starting at iteration
`i` with `k` iterations left (`i + k = cycles`), a `GoodFeed` makes it
succeed, appending one row and one growth per window, recording the
oldest start price on the last iteration and the newest end price on
iteration 0. -/
theorem loopGo_spec (yf : Feed) (hyf : GoodFeed yf) (sym : String) (endD : Date)
    (dv : Int) (du : String) (cycles : Int) (hc : 1 ≤ cycles) :
    ∀ k i st, i + k = cycles.toNat →
      loopGo yf sym endD dv du cycles i k st = .ok
        { results := st.results ++ (List.range' i k).map (resultAt yf sym endD du dv)
          cycle_returns :=
            st.cycle_returns ++ (List.range' i k).map (growthAt yf sym endD du dv)
          oldest_start_price := if k = 0 then st.oldest_start_price
            else some (startPriceAt yf sym endD du dv (cycles.toNat - 1))
          newest_end_price := if k = 0 ∨ i ≠ 0 then st.newest_end_price
            else some (endPriceAt yf sym endD du dv 0) } := by
  intro k
  induction k with
  | zero =>
    intro i st _
    simp [loopGo]
  | succ k ih =>
    intro i st h
    obtain ⟨-, hnz⟩ :=
      hyf sym (cycleStartDate endD du dv i) (cycleEndDate endD du dv i)
    rw [loopGo, get_price_series_ok yf hyf]
    have hsp : ((yf sym (subDelta (subDelta endD du ((i : Int) * dv)) du dv)
        (subDelta endD du ((i : Int) * dv))).map Prod.snd).headD 0 ≠ 0 := hnz
    simp only [hsp, if_false, ite_false]
    rw [ih (i + 1) _ (by omega)]
    have hioe : ((i : Int) = cycles - 1) ↔ i = cycles.toNat - 1 := by omega
    refine congrArg Except.ok ?_
    refine LoopSt.ext ?_ ?_ ?_ ?_
    · simp [List.range'_succ, resultAt, cycleStartDate, cycleEndDate, growthAt,
        startPriceAt, endPriceAt, windowPrices]
    · simp [List.range'_succ, growthAt, startPriceAt, endPriceAt, windowPrices,
        cycleStartDate, cycleEndDate]
    · rcases Nat.eq_zero_or_pos k with hk | hk
      · subst hk
        have hieq : i = cycles.toNat - 1 := by omega
        subst hieq
        have hic : ((cycles.toNat - 1 : Nat) : Int) = cycles - 1 := by omega
        simp [hic, startPriceAt, windowPrices, cycleStartDate, cycleEndDate]
      · simp [Nat.pos_iff_ne_zero.mp hk]
    · rcases Nat.eq_zero_or_pos i with hi | hi
      · subst hi
        simp [endPriceAt, windowPrices, cycleStartDate, cycleEndDate,
          Nat.pos_iff_ne_zero]
      · simp [Nat.pos_iff_ne_zero.mp hi]

/-- The whole loop of `analyze` on a `GoodFeed`, from the initial state. -/
theorem runCycles_spec (yf : Feed) (hyf : GoodFeed yf) (sym : String) (endD : Date)
    (dv : Int) (du : String) (cycles : Int) (hc : 1 ≤ cycles) :
    runCycles yf sym endD dv du cycles = .ok
      { results := (List.range cycles.toNat).map (resultAt yf sym endD du dv)
        cycle_returns := (List.range cycles.toNat).map (growthAt yf sym endD du dv)
        oldest_start_price := some (startPriceAt yf sym endD du dv (cycles.toNat - 1))
        newest_end_price := some (endPriceAt yf sym endD du dv 0) } := by
  have h := loopGo_spec yf hyf sym endD dv du cycles hc cycles.toNat 0
    ⟨[], [], none, none⟩ (by omega)
  have hn : cycles.toNat ≠ 0 := by omega
  rw [runCycles, h]
  simp [hn, List.range_eq_range']

/-- `total_years` of the CAGR block: the overall elapsed span in
fractional years (`days` divides by 365.25 = 1461/4). -/
def total_yearsOf (du : String) (dv cycles : Int) : ℚ :=
  if du = "years" then ((dv * cycles : Int) : ℚ)
  else if du = "months" then (dv * cycles : ℚ) / 12
  else (dv * cycles : ℚ) / (1461 / 4 : ℚ)

/-- The response `analyze` produces on a `GoodFeed` (proved in
`analyze_spec`), phrased window by window via `growthAt`/`resultAt`. -/
noncomputable def specResponse (yf : Feed) (sym : String) (dv : Int) (du : String)
    (cycles : Int) (asset : String) (rfr : ℚ) (endD : Date) : AnalyzeResponse :=
  let cycle_returns := (List.range cycles.toNat).map (growthAt yf sym endD du dv)
  let avg_return : ℚ := cycle_returns.sum / cycle_returns.length
  let std_dev : ℝ := if cycle_returns.length > 1 then pstdev cycle_returns else 0
  let sharpe : ℝ := if std_dev ≠ 0 then (((avg_return - rfr : ℚ) : ℝ)) / std_dev else 0
  let base : AnalyzeResponse :=
    { symbol := sym.toUpper
      average_growth_percent := round2 avg_return
      std_dev_percent := round2R std_dev
      sharpe_ratio := round3R sharpe
      risk_free_rate_used := rfr
      results := (List.range cycles.toNat).map (resultAt yf sym endD du dv)
      cagr_percent := none }
  if asset = "mf" then
    if 0 < total_yearsOf du dv cycles ∧
        0 < startPriceAt yf sym endD du dv (cycles.toNat - 1) then
      let cagr : ℝ :=
        (((endPriceAt yf sym endD du dv 0 : ℚ) : ℝ) /
            ((startPriceAt yf sym endD du dv (cycles.toNat - 1) : ℚ) : ℝ))
          ^ ((1 : ℝ) / ((total_yearsOf du dv cycles : ℚ) : ℝ)) - 1
      { base with cagr_percent := some (round2R (cagr * 100)) }
    else base
  else base

/-- On a valid unit, a parseable end date, `cycles ≥ 1` and a `GoodFeed`,
`analyze` succeeds with exactly the response described by
`specResponse`. -/
theorem analyze_spec (yf : Feed) (hyf : GoodFeed yf) (sym : String) (dv : Int)
    (du : String) (cycles : Int) (ds : String) (endD : Date)
    (asset : String) (rfr : ℚ)
    (hu : du ∈ (["days", "months", "years"] : List String))
    (hp : parse_date ds = .ok endD) (hc : 1 ≤ cycles) :
    analyze yf sym dv du cycles ds asset rfr =
      .ok (specResponse yf sym dv du cycles asset rfr endD) := by
  have hn : ((List.range cycles.toNat).map (growthAt yf sym endD du dv)).length ≠ 0 := by
    simp; omega
  rw [analyze, if_neg (not_not_intro hu), hp]
  dsimp only
  rw [runCycles_spec yf hyf sym endD dv du cycles hc]
  simp only [specResponse, total_yearsOf, hn, if_false, Option.getD_some]
  simp [hn, apply_ite Except.ok]

/-- The dispersion metric as `analyze` computes it from the unrounded
growth list: population standard deviation, except `0.0` for a single
cycle. -/
noncomputable def stdOf (grs : List ℚ) : ℝ :=
  if grs.length > 1 then pstdev grs else 0

/-- The hurdle-adjusted ratio as `analyze` computes it from the unrounded
growth list and the risk-free rate. -/
noncomputable def sharpeOf (grs : List ℚ) (rfr : ℚ) : ℝ :=
  if stdOf grs ≠ 0 then ((grs.sum / grs.length - rfr : ℚ) : ℝ) / stdOf grs else 0

theorem specResponse_results (yf : Feed) (sym : String) (dv : Int) (du : String)
    (cycles : Int) (asset : String) (rfr : ℚ) (endD : Date) :
    (specResponse yf sym dv du cycles asset rfr endD).results =
      (List.range cycles.toNat).map (resultAt yf sym endD du dv) := by
  simp only [specResponse]
  split_ifs <;> rfl

theorem specResponse_rfr (yf : Feed) (sym : String) (dv : Int) (du : String)
    (cycles : Int) (asset : String) (rfr : ℚ) (endD : Date) :
    (specResponse yf sym dv du cycles asset rfr endD).risk_free_rate_used = rfr := by
  simp only [specResponse]
  split_ifs <;> rfl

theorem specResponse_avg (yf : Feed) (sym : String) (dv : Int) (du : String)
    (cycles : Int) (asset : String) (rfr : ℚ) (endD : Date) :
    (specResponse yf sym dv du cycles asset rfr endD).average_growth_percent =
      round2 (((List.range cycles.toNat).map (growthAt yf sym endD du dv)).sum /
        ((List.range cycles.toNat).map (growthAt yf sym endD du dv)).length) := by
  simp only [specResponse]
  split_ifs <;> rfl

theorem specResponse_std (yf : Feed) (sym : String) (dv : Int) (du : String)
    (cycles : Int) (asset : String) (rfr : ℚ) (endD : Date) :
    (specResponse yf sym dv du cycles asset rfr endD).std_dev_percent =
      round2R (stdOf ((List.range cycles.toNat).map (growthAt yf sym endD du dv))) := by
  simp only [specResponse, stdOf]
  split_ifs <;> rfl

theorem specResponse_sharpe (yf : Feed) (sym : String) (dv : Int) (du : String)
    (cycles : Int) (asset : String) (rfr : ℚ) (endD : Date) :
    (specResponse yf sym dv du cycles asset rfr endD).sharpe_ratio =
      round3R (sharpeOf ((List.range cycles.toNat).map (growthAt yf sym endD du dv)) rfr) := by
  simp only [specResponse, sharpeOf, stdOf]
  split_ifs <;> rfl

theorem specResponse_cagr (yf : Feed) (sym : String) (dv : Int) (du : String)
    (cycles : Int) (asset : String) (rfr : ℚ) (endD : Date) :
    (specResponse yf sym dv du cycles asset rfr endD).cagr_percent =
      (if asset = "mf" ∧ 0 < total_yearsOf du dv cycles ∧
          0 < startPriceAt yf sym endD du dv (cycles.toNat - 1) then
        some (round2R (((((endPriceAt yf sym endD du dv 0 : ℚ) : ℝ) /
            ((startPriceAt yf sym endD du dv (cycles.toNat - 1) : ℚ) : ℝ))
          ^ ((1 : ℝ) / ((total_yearsOf du dv cycles : ℚ) : ℝ)) - 1) * 100))
      else none) := by
  simp only [specResponse]
  by_cases hA : asset = "mf"
  · by_cases hG : 0 < total_yearsOf du dv cycles ∧
        0 < startPriceAt yf sym endD du dv (cycles.toNat - 1)
    · simp [hA, hG]
    · simp only [hA, if_true, ite_true, if_neg hG]
      simp [hG]
  · simp [hA]

/-! ### Concrete providers used to instantiate the theorems -/

/-- Every range query returns two rows closing at 100 then 110. -/
def flatFeed : Feed := fun _ _ _ => [("2023-01-02", 100), ("2023-12-29", 110)]

theorem flatFeed_good : GoodFeed flatFeed := by
  intro sym s e
  constructor <;> simp [flatFeed]

/-- Every range query returns two rows closing at 100 then 200. -/
def growFeed : Feed := fun _ _ _ => [("2017-01-02", 100), ("2023-12-29", 200)]

theorem growFeed_good : GoodFeed growFeed := by
  intro sym s e
  constructor <;> simp [growFeed]

/-- A provider whose windows starting in 2023 return a flat series and
whose earlier windows gain 20%: two cycles with growths 0 and 20. -/
def varFeed : Feed := fun _ s _ =>
  if s.year = 2023 then [("2023-01-02", 100), ("2023-12-29", 100)]
  else [("2022-01-03", 100), ("2022-12-30", 120)]

theorem varFeed_good : GoodFeed varFeed := by
  intro sym s e
  unfold varFeed
  split <;> constructor <;> simp

/-- The two `varFeed` cycles anchored at 2024-01-01 grow by 0% and 20%. -/
theorem varFeed_growthAt (sym : String) :
    growthAt varFeed sym ⟨2024, 1, 1⟩ "years" 1 0 = 0 ∧
    growthAt varFeed sym ⟨2024, 1, 1⟩ "years" 1 1 = 20 := by
  have c0 : cycleStartDate ⟨2024, 1, 1⟩ "years" 1 0 = ⟨2023, 1, 1⟩ := by decide
  have c1 : cycleStartDate ⟨2024, 1, 1⟩ "years" 1 1 = ⟨2022, 1, 1⟩ := by decide
  constructor <;>
    norm_num [growthAt, startPriceAt, endPriceAt, windowPrices, c0, c1, varFeed]

/-- Every `flatFeed` window gains exactly 10%. -/
theorem flatFeed_growthAt (sym : String) (endD : Date) (du : String) (dv : Int)
    (i : Nat) : growthAt flatFeed sym endD du dv i = 10 := by
  norm_num [growthAt, startPriceAt, endPriceAt, windowPrices, flatFeed]

/-- Every `flatFeed` response row shows a rounded growth of 10. -/
theorem flatFeed_resultAt (sym : String) (endD : Date) (du : String) (dv : Int)
    (i : Nat) : resultAt flatFeed sym endD du dv i =
      ⟨i + 1, strftime (cycleStartDate endD du dv i),
        strftime (cycleEndDate endD du dv i), 10⟩ := by
  rw [resultAt, flatFeed_growthAt]
  norm_num [round2, round_eq]

/-- A successful fetch whose first close is 0. -/
def zeroStartFeed : Feed := fun _ _ _ => [("2023-01-02", 0), ("2023-12-29", 110)]

/-- A second successful fetch whose first close is 0. -/
def zeroStartFeed2 : Feed := fun _ _ _ => [("2023-01-02", 0), ("2023-12-29", 50)]

/-! ### The claims -/

/-- C1: for every reference end date, positive duration and cycle count
`n ≥ 1` (with every window fetch succeeding), `analyze` reports 1-based
cycles `i = 0 .. n−1` whose window is
`cycle_end = reference_end − i × duration`,
`cycle_start = cycle_end − duration` (relative-delta arithmetic), in
that order. -/
theorem analyze_generates_windows (yf : Feed) (sym : String) (dv : Int)
    (du : String) (cycles : Int) (ds : String) (endD : Date) (asset : String)
    (rfr : ℚ) (hu : du ∈ (["days", "months", "years"] : List String))
    (_hd : 0 < dv) (hc : 1 ≤ cycles) (hp : parse_date ds = .ok endD)
    (hyf : GoodFeed yf) :
    (analyze yf sym dv du cycles ds asset rfr).map
        (fun r => r.results.map (fun c => (c.cycle, c.from_, c.to_))) =
      .ok ((List.range cycles.toNat).map (fun i =>
        (i + 1, strftime (subDelta (subDelta endD du ((i : Int) * dv)) du dv),
          strftime (subDelta endD du ((i : Int) * dv))))) := by
  rw [analyze_spec yf hyf sym dv du cycles ds endD asset rfr hu hp hc]
  simp [Except.map, specResponse_results, resultAt, cycleStartDate, cycleEndDate]

/-- Witness for C1: unit `years`, duration 1, 3 cycles, reference end
2024-01-01 produce exactly the three windows of the claim. -/
theorem analyze_generates_windows_witness :
    (analyze flatFeed "RELIANCE.NS" 1 "years" 3 "2024-01-01" "stock" 0).map
        (fun r => r.results.map (fun c => (c.cycle, c.from_, c.to_))) =
      .ok [(1, "2023-01-01", "2024-01-01"), (2, "2022-01-01", "2023-01-01"),
        (3, "2021-01-01", "2022-01-01")] := by
  rw [analyze_generates_windows flatFeed "RELIANCE.NS" 1 "years" 3 "2024-01-01"
    ⟨2024, 1, 1⟩ "stock" 0 (by decide) (by decide) (by decide) (by decide)
    flatFeed_good]
  decide

/-- C2 (the code violates it): with a valid unit and date but
`cycles ≤ 0`, the loop runs zero times and `sum(...) / len(...)` raises
an unhandled `ZeroDivisionError` — for every provider — instead of an
explicit user-facing error. -/
theorem analyze_nonpositive_cycles_crash (yf : Feed) (sym : String) (dv : Int)
    (du : String) (cycles : Int) (ds : String) (endD : Date) (asset : String)
    (rfr : ℚ) (hu : du ∈ (["days", "months", "years"] : List String))
    (hp : parse_date ds = .ok endD) (hc : cycles ≤ 0) :
    analyze yf sym dv du cycles ds asset rfr = .error .zeroDivision := by
  have h0 : cycles.toNat = 0 := by omega
  rw [analyze, if_neg (not_not_intro hu), hp]
  dsimp only
  rw [runCycles, h0]
  simp [loopGo]

/-- Witness for C2 at `cycles = 0`. -/
theorem analyze_nonpositive_cycles_crash_witness :
    analyze flatFeed "TCS.NS" 1 "years" 0 "2024-01-01" "stock" 0 =
      .error .zeroDivision :=
  analyze_nonpositive_cycles_crash flatFeed "TCS.NS" 1 "years" 0 "2024-01-01"
    ⟨2024, 1, 1⟩ "stock" 0 (by decide) (by decide) (by decide)

/-- C8: a `duration_unit` outside `{days, months, years}` makes both
`analyze` and `price_series` fail with the 400 `Invalid duration_unit`
error, for every provider (so no provider call is ever made). -/
theorem invalid_unit_rejected (yf : Feed) (sym : String) (dv : Int) (du : String)
    (cycles : Int) (ds : String) (asset : String) (rfr : ℚ)
    (hu : du ∉ (["days", "months", "years"] : List String)) :
    analyze yf sym dv du cycles ds asset rfr =
        .error (.http 400 "Invalid duration_unit") ∧
    price_series yf sym dv du cycles ds =
        .error (.http 400 "Invalid duration_unit") := by
  constructor
  · rw [analyze, if_pos hu]
  · rw [price_series, if_pos hu]

/-- Witness for C8 at `duration_unit = "weeks"`. -/
theorem invalid_unit_rejected_witness :
    analyze flatFeed "TCS.NS" 1 "weeks" 3 "2024-01-01" "stock" 0 =
        .error (.http 400 "Invalid duration_unit") ∧
    price_series flatFeed "TCS.NS" 1 "weeks" 3 "2024-01-01" =
        .error (.http 400 "Invalid duration_unit") :=
  invalid_unit_rejected flatFeed "TCS.NS" 1 "weeks" 3 "2024-01-01" "stock" 0
    (by decide)

/-- C10: a zero-length query makes `search_symbols` return an empty
result list with no error field, without consulting the symbol
universe (the result is the same for every universe outcome). -/
theorem search_empty_query (gs gs' : Except String (List String)) (q : String)
    (hq : q.length = 0) :
    search_symbols gs q = { results := [], error := none } ∧
    search_symbols gs q = search_symbols gs' q := by
  have h : q.length < 1 := by omega
  have e1 : search_symbols gs q = { results := [], error := none } := by
    rw [search_symbols.eq_def, if_pos h]
  have e2 : search_symbols gs' q = { results := [], error := none } := by
    rw [search_symbols.eq_def, if_pos h]
  exact ⟨e1, e1.trans e2.symm⟩

/-- Witness for C10: the empty query, against both a failing and a
succeeding universe lookup. -/
theorem search_empty_query_witness :
    search_symbols (.error "connection reset") "" = { results := [], error := none } ∧
    search_symbols (.error "connection reset") "" =
      search_symbols (.ok ["TCS", "INFY"]) "" :=
  search_empty_query (.error "connection reset") (.ok ["TCS", "INFY"]) "" (by decide)

/-- C4 (the code violates it): a cycle whose fetched series starts at
price 0 makes `analyze` die with an unhandled `ZeroDivisionError` from
`(end_price - start_price) / start_price`; no `InvalidPrice`-style
`HTTPException` is raised anywhere. -/
theorem zero_start_price_crash :
    analyze zeroStartFeed "INFY.NS" 1 "years" 1 "2024-01-01" "stock" 0 =
      .error .zeroDivision := by
  rfl

/-- Counterexample to C9 as stated: every per-cycle fetch succeeds (two
rows each), yet no results list is returned at all — the request dies in
the zero-start-price division. -/
theorem fetch_success_not_sufficient :
    analyze zeroStartFeed2 "WIPRO.NS" 1 "years" 2 "2024-01-01" "stock" 0 =
      .error .zeroDivision := by
  rfl

/-- C9 as amended: with `cycles ≥ 1`, every fetch succeeding AND every
fetched series having a nonzero first price, the results list is exactly
the rows `1, 2, ..., cycles` in order, each with its window dates and
rounded growth, and `risk_free_rate_used` echoes the input. -/
theorem results_enumerate_cycles (yf : Feed) (sym : String) (dv : Int)
    (du : String) (cycles : Int) (ds : String) (endD : Date) (asset : String)
    (rfr : ℚ) (hu : du ∈ (["days", "months", "years"] : List String))
    (hc : 1 ≤ cycles) (hp : parse_date ds = .ok endD) (hyf : GoodFeed yf) :
    (analyze yf sym dv du cycles ds asset rfr).map
        (fun r => (r.results, r.risk_free_rate_used)) =
      .ok ((List.range cycles.toNat).map (resultAt yf sym endD du dv), rfr) := by
  rw [analyze_spec yf hyf sym dv du cycles ds endD asset rfr hu hp hc]
  simp [Except.map, specResponse_results, specResponse_rfr]

/-- Witness for amended C9: two flat cycles, rows 1 and 2 with their
windows and zero growth, and the echoed risk-free rate. -/
theorem results_enumerate_cycles_witness :
    (analyze flatFeed "SBIN.NS" 1 "years" 2 "2024-01-01" "stock" (7/2)).map
        (fun r => (r.results, r.risk_free_rate_used)) =
      .ok ([⟨1, "2023-01-01", "2024-01-01", 10⟩,
        ⟨2, "2022-01-01", "2023-01-01", 10⟩], 7/2) := by
  rw [results_enumerate_cycles flatFeed "SBIN.NS" 1 "years" 2 "2024-01-01"
    ⟨2024, 1, 1⟩ "stock" (7/2) (by decide) (by decide) (by decide) flatFeed_good]
  have h2 : List.range 2 = [0, 1] := by decide
  have e1 : strftime (cycleStartDate ⟨2024, 1, 1⟩ "years" 1 0) = "2023-01-01" := by decide
  have e2 : strftime (cycleEndDate ⟨2024, 1, 1⟩ "years" 1 0) = "2024-01-01" := by decide
  have e3 : strftime (cycleStartDate ⟨2024, 1, 1⟩ "years" 1 1) = "2022-01-01" := by decide
  have e4 : strftime (cycleEndDate ⟨2024, 1, 1⟩ "years" 1 1) = "2023-01-01" := by decide
  simp [h2, flatFeed_resultAt, e1, e2, e3, e4]

/-- C5: the growth of a cycle is `(end − start) / start × 100` over the
fetched series' first and last prices; the per-cycle reported value is
that growth rounded to two decimals, while the mean, the dispersion and
the ratio are all computed from the unrounded growth list. -/
theorem growth_formula_rule (yf : Feed) (sym : String) (dv : Int) (du : String)
    (cycles : Int) (ds : String) (endD : Date) (asset : String) (rfr : ℚ)
    (hu : du ∈ (["days", "months", "years"] : List String)) (hc : 1 ≤ cycles)
    (hp : parse_date ds = .ok endD) (hyf : GoodFeed yf) :
    growthAt yf sym endD du dv = (fun i =>
      (endPriceAt yf sym endD du dv i - startPriceAt yf sym endD du dv i)
        / startPriceAt yf sym endD du dv i * 100) ∧
    (analyze yf sym dv du cycles ds asset rfr).map
        (fun r => (r.results.map (fun c => c.growth_percent),
          r.average_growth_percent, r.std_dev_percent, r.sharpe_ratio)) =
      .ok ((List.range cycles.toNat).map (fun i => round2 (growthAt yf sym endD du dv i)),
        round2 (((List.range cycles.toNat).map (growthAt yf sym endD du dv)).sum /
          ((List.range cycles.toNat).map (growthAt yf sym endD du dv)).length),
        round2R (stdOf ((List.range cycles.toNat).map (growthAt yf sym endD du dv))),
        round3R (sharpeOf ((List.range cycles.toNat).map (growthAt yf sym endD du dv)) rfr)) := by
  refine ⟨rfl, ?_⟩
  rw [analyze_spec yf hyf sym dv du cycles ds endD asset rfr hu hp hc]
  simp [Except.map, specResponse_results, specResponse_avg, specResponse_std,
    specResponse_sharpe, resultAt, List.map_map, Function.comp]

/-- Witness for C5: a 100 → 110 cycle yields exactly 10.0 percent. -/
theorem growth_formula_rule_witness :
    growthAt flatFeed "HDFCBANK.NS" ⟨2024, 1, 1⟩ "years" 1 = (fun i =>
      (endPriceAt flatFeed "HDFCBANK.NS" ⟨2024, 1, 1⟩ "years" 1 i -
          startPriceAt flatFeed "HDFCBANK.NS" ⟨2024, 1, 1⟩ "years" 1 i)
        / startPriceAt flatFeed "HDFCBANK.NS" ⟨2024, 1, 1⟩ "years" 1 i * 100) ∧
    (analyze flatFeed "HDFCBANK.NS" 1 "years" 1 "2024-01-01" "stock" 0).map
        (fun r => (r.results.map (fun c => c.growth_percent),
          r.average_growth_percent, r.std_dev_percent, r.sharpe_ratio)) =
      .ok ([10], 10, 0, 0) := by
  have h := growth_formula_rule flatFeed "HDFCBANK.NS" 1 "years" 1 "2024-01-01"
    ⟨2024, 1, 1⟩ "stock" 0 (by decide) (by decide) (by decide) flatFeed_good
  refine ⟨h.1, ?_⟩
  rw [h.2]
  have hr : List.range ((1 : Int)).toNat = [0] := by decide
  rw [hr]
  simp only [List.map_cons, List.map_nil, flatFeed_growthAt]
  norm_num [round2, round_eq, round2R, round3R, stdOf, sharpeOf]

/-- C6: the reported standard deviation divides the squared-deviation
sum by `N` (population convention), and a single cycle reports exactly
0.0. -/
theorem std_dev_population_rule (yf : Feed) (sym : String) (dv : Int) (du : String)
    (cycles : Int) (ds : String) (endD : Date) (asset : String) (rfr : ℚ)
    (grs : List ℚ)
    (hg : grs = (List.range cycles.toNat).map (growthAt yf sym endD du dv))
    (hu : du ∈ (["days", "months", "years"] : List String)) (hc : 1 ≤ cycles)
    (hp : parse_date ds = .ok endD) (hyf : GoodFeed yf) :
    (grs.length = 1 →
      (analyze yf sym dv du cycles ds asset rfr).map (fun r => r.std_dev_percent) =
        .ok 0) ∧
    (1 < grs.length →
      (analyze yf sym dv du cycles ds asset rfr).map (fun r => r.std_dev_percent) =
        .ok (round2R (Real.sqrt
          (((grs.map (fun x => (x - grs.sum / grs.length) ^ 2)).sum / grs.length
            : ℚ))))) := by
  subst hg
  rw [analyze_spec yf hyf sym dv du cycles ds endD asset rfr hu hp hc]
  constructor
  · intro h1
    simp [Except.map, specResponse_std, stdOf, h1, round2R]
  · intro h2
    have h2' : 1 < cycles := by simp at h2; omega
    simp [Except.map, specResponse_std, stdOf, h2, h2', pstdev, pvariance]

/-- Witness for C6: one flat cycle reports 0.0; two cycles with growths
0 and 20 report the 2-decimal rounding of √(((0−10)² + (20−10)²)/2). -/
theorem std_dev_population_rule_witness :
    ((analyze flatFeed "ITC.NS" 1 "years" 1 "2024-01-01" "stock" 0).map
        (fun r => r.std_dev_percent) = .ok 0) ∧
    ((analyze varFeed "ITC.NS" 1 "years" 2 "2024-01-01" "stock" 0).map
        (fun r => r.std_dev_percent) =
      .ok (round2R (Real.sqrt
        ((([(0 : ℚ), 20].map (fun x => (x - [(0 : ℚ), 20].sum / [(0 : ℚ), 20].length) ^ 2)).sum
          / [(0 : ℚ), 20].length : ℚ))))) := by
  have hgl1 : [(10 : ℚ)] =
      (List.range ((1 : Int)).toNat).map (growthAt flatFeed "ITC.NS" ⟨2024, 1, 1⟩ "years" 1) := by
    rw [show List.range ((1 : Int)).toNat = [0] from by decide]
    simp [flatFeed_growthAt]
  have hgl2 : [(0 : ℚ), 20] =
      (List.range ((2 : Int)).toNat).map (growthAt varFeed "ITC.NS" ⟨2024, 1, 1⟩ "years" 1) := by
    rw [show List.range ((2 : Int)).toNat = [0, 1] from by decide]
    simp [(varFeed_growthAt "ITC.NS").1, (varFeed_growthAt "ITC.NS").2]
  constructor
  · exact (std_dev_population_rule flatFeed "ITC.NS" 1 "years" 1 "2024-01-01"
      ⟨2024, 1, 1⟩ "stock" 0 [10] hgl1 (by decide) (by decide) (by decide)
      flatFeed_good).1 (by decide)
  · exact (std_dev_population_rule varFeed "ITC.NS" 1 "years" 2 "2024-01-01"
      ⟨2024, 1, 1⟩ "stock" 0 [0, 20] hgl2 (by decide) (by decide) (by decide)
      varFeed_good).2 (by decide)

/-- C7: the reported ratio is `(average_growth − risk_free_rate) /
std_dev` when the dispersion is nonzero and exactly 0.0 when it is zero,
for every average and risk-free rate — no division by zero occurs. -/
theorem sharpe_hurdle_rule (yf : Feed) (sym : String) (dv : Int) (du : String)
    (cycles : Int) (ds : String) (endD : Date) (asset : String) (rfr : ℚ)
    (grs : List ℚ)
    (hg : grs = (List.range cycles.toNat).map (growthAt yf sym endD du dv))
    (hu : du ∈ (["days", "months", "years"] : List String)) (hc : 1 ≤ cycles)
    (hp : parse_date ds = .ok endD) (hyf : GoodFeed yf) :
    (stdOf grs = 0 →
      (analyze yf sym dv du cycles ds asset rfr).map (fun r => r.sharpe_ratio) =
        .ok 0) ∧
    (stdOf grs ≠ 0 →
      (analyze yf sym dv du cycles ds asset rfr).map (fun r => r.sharpe_ratio) =
        .ok (round3R (((grs.sum / grs.length - rfr : ℚ) : ℝ) / stdOf grs))) := by
  subst hg
  rw [analyze_spec yf hyf sym dv du cycles ds endD asset rfr hu hp hc]
  constructor
  · intro h0
    simp [Except.map, specResponse_sharpe, sharpeOf, h0, round3R]
  · intro h0
    simp [Except.map, specResponse_sharpe, sharpeOf, h0]

/-- Witness for C7: a single cycle (zero dispersion) reports exactly 0
even with a nonzero hurdle rate; two cycles with growths 0 and 20 report
the rounded hurdle-adjusted quotient. -/
theorem sharpe_hurdle_rule_witness :
    ((analyze flatFeed "LT.NS" 1 "years" 1 "2024-01-01" "stock" (5/2)).map
        (fun r => r.sharpe_ratio) = .ok 0) ∧
    ((analyze varFeed "LT.NS" 1 "years" 2 "2024-01-01" "stock" 1).map
        (fun r => r.sharpe_ratio) =
      .ok (round3R ((([(0 : ℚ), 20].sum / [(0 : ℚ), 20].length - 1 : ℚ) : ℝ) /
        stdOf [(0 : ℚ), 20]))) := by
  have hgl1 : [(10 : ℚ)] =
      (List.range ((1 : Int)).toNat).map (growthAt flatFeed "LT.NS" ⟨2024, 1, 1⟩ "years" 1) := by
    rw [show List.range ((1 : Int)).toNat = [0] from by decide]
    simp [flatFeed_growthAt]
  have hgl2 : [(0 : ℚ), 20] =
      (List.range ((2 : Int)).toNat).map (growthAt varFeed "LT.NS" ⟨2024, 1, 1⟩ "years" 1) := by
    rw [show List.range ((2 : Int)).toNat = [0, 1] from by decide]
    simp [(varFeed_growthAt "LT.NS").1, (varFeed_growthAt "LT.NS").2]
  have hstd1 : stdOf [(10 : ℚ)] = 0 := by
    simp [stdOf]
  have hvar : pvariance [(0 : ℚ), 20] = 100 := by
    norm_num [pvariance]
  have hstd2 : stdOf [(0 : ℚ), 20] ≠ 0 := by
    simp only [stdOf, pstdev, hvar]
    norm_num [Real.sqrt_ne_zero']
  constructor
  · exact (sharpe_hurdle_rule flatFeed "LT.NS" 1 "years" 1 "2024-01-01"
      ⟨2024, 1, 1⟩ "stock" (5/2) [10] hgl1 (by decide) (by decide) (by decide)
      flatFeed_good).1 hstd1
  · exact (sharpe_hurdle_rule varFeed "LT.NS" 1 "years" 2 "2024-01-01"
      ⟨2024, 1, 1⟩ "stock" 1 [0, 20] hgl2 (by decide) (by decide) (by decide)
      varFeed_good).2 hstd2

/-- C3: for fund-type requests (`asset_type = "mf"`) whose fetches all
succeed, the CAGR field is the 2-decimal rounding of
`((newest_end / oldest_start) ^ (1 / total_years) − 1) × 100`, where the
oldest start price comes from the highest-indexed (chronologically
earliest) cycle, the newest end price from cycle index 1, and
`total_years` converts the overall span by unit (`years`: value × count,
`months`: / 12, `days`: / 365.25); when `total_years ≤ 0` or the oldest
start price is non-positive the field is omitted instead of raising, and
non-fund requests never carry the field. -/
theorem cagr_fund_rule (yf : Feed) (sym : String) (dv : Int) (du : String)
    (cycles : Int) (ds : String) (endD : Date) (asset : String) (rfr : ℚ)
    (hu : du ∈ (["days", "months", "years"] : List String)) (hc : 1 ≤ cycles)
    (hp : parse_date ds = .ok endD) (hyf : GoodFeed yf) :
    (asset = "mf" →
      (0 < total_yearsOf du dv cycles →
        0 < startPriceAt yf sym endD du dv (cycles.toNat - 1) →
        (analyze yf sym dv du cycles ds asset rfr).map (fun r => r.cagr_percent) =
          .ok (some (round2R (((((endPriceAt yf sym endD du dv 0 : ℚ) : ℝ) /
              ((startPriceAt yf sym endD du dv (cycles.toNat - 1) : ℚ) : ℝ))
            ^ ((1 : ℝ) / ((total_yearsOf du dv cycles : ℚ) : ℝ)) - 1) * 100)))) ∧
      (¬ (0 < total_yearsOf du dv cycles ∧
          0 < startPriceAt yf sym endD du dv (cycles.toNat - 1)) →
        (analyze yf sym dv du cycles ds asset rfr).map (fun r => r.cagr_percent) =
          .ok none)) ∧
    (asset ≠ "mf" →
      (analyze yf sym dv du cycles ds asset rfr).map (fun r => r.cagr_percent) =
        .ok none) := by
  rw [analyze_spec yf hyf sym dv du cycles ds endD asset rfr hu hp hc]
  refine ⟨fun hA => ⟨fun h1 h2 => ?_, fun hG => ?_⟩, fun hA => ?_⟩
  · simp [Except.map, specResponse_cagr, hA, h1, h2]
  · simp [Except.map, specResponse_cagr, hA, hG]
  · simp [Except.map, specResponse_cagr, hA]

/-- Witness for C3: a fund with one 100 → 200 cycle over one year gets a
CAGR field built from oldest start 100 and newest end 200 over 1 year;
the same request as a stock carries no CAGR field. -/
theorem cagr_fund_rule_witness :
    startPriceAt growFeed "UTI-NIFTY" ⟨2024, 1, 1⟩ "years" 1 ((1 : Int).toNat - 1) = 100 ∧
    endPriceAt growFeed "UTI-NIFTY" ⟨2024, 1, 1⟩ "years" 1 0 = 200 ∧
    total_yearsOf "years" 1 1 = 1 ∧
    ((analyze growFeed "UTI-NIFTY" 1 "years" 1 "2024-01-01" "mf" 0).map
        (fun r => r.cagr_percent) =
      .ok (some (round2R (((((endPriceAt growFeed "UTI-NIFTY" ⟨2024, 1, 1⟩ "years" 1 0 : ℚ) : ℝ) /
          ((startPriceAt growFeed "UTI-NIFTY" ⟨2024, 1, 1⟩ "years" 1 ((1 : Int).toNat - 1) : ℚ) : ℝ))
        ^ ((1 : ℝ) / ((total_yearsOf "years" 1 1 : ℚ) : ℝ)) - 1) * 100)))) ∧
    ((analyze growFeed "UTI-NIFTY" 1 "years" 1 "2024-01-01" "stock" 0).map
        (fun r => r.cagr_percent) = .ok none) := by
  have h := cagr_fund_rule growFeed "UTI-NIFTY" 1 "years" 1 "2024-01-01"
    ⟨2024, 1, 1⟩ "mf" 0 (by decide) (by decide) (by decide) growFeed_good
  have h' := cagr_fund_rule growFeed "UTI-NIFTY" 1 "years" 1 "2024-01-01"
    ⟨2024, 1, 1⟩ "stock" 0 (by decide) (by decide) (by decide) growFeed_good
  have hty : (0 : ℚ) < total_yearsOf "years" 1 1 := by norm_num [total_yearsOf]
  have hsp : (0 : ℚ) <
      startPriceAt growFeed "UTI-NIFTY" ⟨2024, 1, 1⟩ "years" 1 ((1 : Int).toNat - 1) := by
    norm_num [startPriceAt, windowPrices, growFeed]
  refine ⟨?_, ?_, ?_, (h.1 rfl).1 hty hsp, h'.2 (by decide)⟩
  · norm_num [startPriceAt, windowPrices, growFeed]
  · norm_num [endPriceAt, windowPrices, growFeed]
  · norm_num [total_yearsOf]

end StockCycle
